import Mathlib

/-!
Shallow embedding of `src/magichome.py`: the MagicHome protocol codec, the
controller session operations, and the UDP discovery logic. Machine bytes
are modelled as `ℕ` with explicit reduction mod 256 where the source masks,
Python ints as `ℤ`, CPython float arithmetic (`colorsys`) as exact `ℚ`
arithmetic, and fallible paths as `Option`/`Except`.
-/

/-! ## Data model -/

/-- `MagicHomeControllerColorState`: four channel values, Python ints. -/
structure MagicHomeControllerColorState where
  r : ℤ
  g : ℤ
  b : ℤ
  w : ℤ
deriving DecidableEq

/-- `MagicHomeControllerState`: optional on/off flag plus a color state. -/
structure MagicHomeControllerState where
  is_on : Option Bool
  color : MagicHomeControllerColorState
deriving DecidableEq

/-! ## The `colorsys` functions used by `change_brightness`, in exact
rational arithmetic. The source passes raw 0-255 integer channels to them,
although `colorsys` documents its domain as [0,1]. -/

/-- Python `x % 1.0`: the fractional part `x - ⌊x⌋` (CPython float modulo
takes the sign of the divisor, here nonnegative). -/
def pyfract (x : ℚ) : ℚ := x - ⌊x⌋

/-- Python `int(x)` on a float: truncation toward zero, so the ceiling for
negative arguments and the floor otherwise. -/
def int_trunc (q : ℚ) : ℤ := if q < 0 then ⌈q⌉ else ⌊q⌋

/-- The hue/luminance/saturation triple returned by `colorsys.rgb_to_hls`. -/
structure HLS where
  h : ℚ
  l : ℚ
  s : ℚ
deriving DecidableEq

/-- Model of `colorsys.rgb_to_hls`. When the saturation denominator
`2 - maxc - minc` is zero CPython raises `ZeroDivisionError`; rational
division totalizes that corner as `s = 0`, which no claim below touches. -/
def rgb_to_hls (r g b : ℚ) : HLS :=
  let maxc := max r (max g b)
  let minc := min r (min g b)
  let l := (maxc + minc) / 2
  if minc = maxc then ⟨0, l, 0⟩
  else
    let s := if l ≤ 1/2 then (maxc - minc) / (maxc + minc)
             else (maxc - minc) / (2 - maxc - minc)
    let rc := (maxc - r) / (maxc - minc)
    let gc := (maxc - g) / (maxc - minc)
    let bc := (maxc - b) / (maxc - minc)
    let h := if r = maxc then bc - gc
             else if g = maxc then 2 + rc - bc
             else 4 + gc - rc
    ⟨pyfract (h / 6), l, s⟩

/-- Model of `colorsys._v`, the piecewise hue interpolation. -/
def hls_v (m1 m2 hue : ℚ) : ℚ :=
  let hue := pyfract hue
  if hue < 1/6 then m1 + (m2 - m1) * hue * 6
  else if hue < 1/2 then m2
  else if hue < 2/3 then m1 + (m2 - m1) * (2/3 - hue) * 6
  else m1

/-- Model of `colorsys.hls_to_rgb`. -/
def hls_to_rgb (h l s : ℚ) : ℚ × ℚ × ℚ :=
  if s = 0 then (l, l, l)
  else
    let m2 := if l ≤ 1/2 then l * (1 + s) else l + s - l * s
    let m1 := 2 * l - m2
    (hls_v m1 m2 (h + 1/3), hls_v m1 m2 h, hls_v m1 m2 (h - 1/3))

/-- The luminance `colorsys.rgb_to_hls` reports for a color's channels. -/
def MagicHomeControllerColorState.luminance
    (c : MagicHomeControllerColorState) : ℚ :=
  (rgb_to_hls c.r c.g c.b).l

/-- The luminance computed inside `change_brightness`: moved by `delta`
(multiplicatively when `percentage`, else additively), then clamped into
[0,255] by the source's `if l < 0 ... elif l > 255 ...`. -/
def MagicHomeControllerColorState.adjusted_luminance
    (c : MagicHomeControllerColorState) (delta : ℚ) (percentage : Bool) : ℚ :=
  let l := if percentage then c.luminance * delta else c.luminance + delta
  if l < 0 then 0 else if l > 255 then 255 else l

/-- `MagicHomeControllerColorState.change_brightness`: returns the state
unchanged for `delta == 0` (or `None`); otherwise converts the channels to
HLS, adjusts and clamps the luminance, converts back and stores the
truncated channels. -/
def MagicHomeControllerColorState.change_brightness
    (c : MagicHomeControllerColorState) (delta : ℚ) (percentage : Bool) :
    MagicHomeControllerColorState :=
  if delta = 0 then c
  else
    let hls := rgb_to_hls c.r c.g c.b
    let l := c.adjusted_luminance delta percentage
    let rgb := hls_to_rgb hls.h l hls.s
    { c with r := int_trunc rgb.1, g := int_trunc rgb.2.1, b := int_trunc rgb.2.2 }

/-! ## Protocol codec -/

/-- `MagicHomeController.turn_on` sends this fixed frame. -/
def turn_on_command : List ℕ := [0x71, 0x23, 0x94]

/-- `MagicHomeController.turn_off` sends this fixed frame. -/
def turn_off_command : List ℕ := [0x71, 0x24, 0x95]

/-- The `state` getter sends this fixed query frame. -/
def query_state_command : List ℕ := [0x81, 0x8a, 0x8b, 0x96]

/-- `MagicHomeController.__int2byte`: clamp an integer channel into [0,255];
negative inputs give `0x00`, inputs above 255 give `0xff`. -/
def int2byte (i : ℤ) : ℕ :=
  if i < 0 then 0
  else if i > 255 then 255
  else i.toNat

/-- `MagicHomeController.__stream_checksum`: `sum(stream) & 0xff`; the sum
of a byte stream is a nonnegative Python int, so the mask is reduction
mod 256. -/
def stream_checksum (stream : List ℕ) : ℕ :=
  stream.sum % 256

/-- `MagicHomeController.color`: the set-color command
`31 RR GG BB WW 0f` followed by the checksum of those six bytes. -/
def color_command (r g b w : ℤ) : List ℕ :=
  let command : List ℕ :=
    [0x31, int2byte r, int2byte g, int2byte b, int2byte w, 0x0f]
  command ++ [stream_checksum command]

/-- The two ways the `state` getter fails in the source: subscripting the
`None` that `_send` returns after a receive timeout raises `TypeError`
(modelled `noResponse`), and indexing a response shorter than 10 bytes
raises `IndexError` (modelled `malformedResponse`). -/
inductive StateErr where
  | noResponse
  | malformedResponse
deriving DecidableEq

/-- The decoding the `state` getter performs on a received response: byte 2
is compared with `0x23` twice (the source's `elif` repeats the `if`
condition verbatim, so the `False` branch is dead), bytes 6-9 are the
channels. The largest index read is 9, so exactly the responses shorter
than 10 bytes raise `IndexError`. -/
def decodeQueryResponse (response : List ℕ) :
    Except StateErr MagicHomeControllerState :=
  if response.length < 10 then .error .malformedResponse
  else .ok
    { is_on :=
        if response.getD 2 0 = 0x23 then some true
        else if response.getD 2 0 = 0x23 then some false
        else none,
      color :=
        ⟨response.getD 6 0, response.getD 7 0, response.getD 8 0,
         response.getD 9 0⟩ }

/-- `MagicHomeController.state` (getter), as a function of what `_send`
returned: `none` models the receive timeout. -/
def state_get (response : Option (List ℕ)) :
    Except StateErr MagicHomeControllerState :=
  match response with
  | none => .error .noResponse
  | some r => decodeQueryResponse r

/-! ## Session operations -/

/-- Which of the two power frames an operation sends. -/
inductive PowerAction where
  | turnOn
  | turnOff
deriving DecidableEq

/-- `MagicHomeController.power_toggle`: only `is_on is True` picks
`turn_off`; both `False` and `None` pick `turn_on`. -/
def power_toggle_action (st : MagicHomeControllerState) : PowerAction :=
  if st.is_on = some true then .turnOff else .turnOn

/-- A command pushed to the device by the `state` setter. -/
inductive Command where
  | turnOn
  | turnOff
  | setColor (r g b w : ℤ)
deriving DecidableEq

/-- The wire frame each command stands for. -/
def Command.wire : Command → List ℕ
  | .turnOn => turn_on_command
  | .turnOff => turn_off_command
  | .setColor r g b w => color_command r g b w

/-- Python truthiness of the optional flag: `not s.is_on` is `True` for
both `False` and `None`. -/
def py_falsy : Option Bool → Bool
  | some true => false
  | _ => true

/-- `MagicHomeController.state` (setter): a falsy flag sends only
`turn_off` and returns; otherwise the color command is sent with the
state's channels. -/
def set_state (s : MagicHomeControllerState) : List Command :=
  if py_falsy s.is_on then [.turnOff]
  else [.setColor s.color.r s.color.g s.color.b s.color.w]

/-! ## Discovery -/

/-- A controller identity as built by `MagicHomeController.__init__`:
`id` and `model` are defaulted to `None` when fewer than three fields
arrive. -/
structure MagicHomeController where
  addr : List Char
  id : Option (List Char)
  model : Option (List Char)
deriving DecidableEq

/-- Model of `data.split(b',')` on a received datagram: split at every
comma, keeping empty fields; the result always has at least one field. -/
def split_fields : List Char → List (List Char)
  | [] => [[]]
  | c :: rest =>
    if c = ',' then [] :: split_fields rest
    else
      match split_fields rest with
      | f :: fs => (c :: f) :: fs
      | [] => [[c]]

/-- The probe `MagicHome.__broadcast_message` sent on UDP port 48899. -/
def broadcast_message : List Char := "HF-A11ASSISTHREAD".toList

/-- `MagicHomeController(*data.split(b','))`: the constructor takes one
required parameter and two defaulted ones, so splits into 1, 2 or 3 fields
construct an identity, and only splits into more than 3 fields raise
`TypeError`. -/
def parseDiscoveryResponse (data : List Char) : Option MagicHomeController :=
  match split_fields data with
  | [a] => some ⟨a, none, none⟩
  | [a, i] => some ⟨a, some i, none⟩
  | [a, i, m] => some ⟨a, some i, some m⟩
  | _ => none

/-- One received datagram's contribution to `MagicHome.discover`: the
echoed probe is skipped, then the constructor is attempted and a failure
is caught, logged as a warning, and skipped. -/
def discover_step (data : List Char) : Option MagicHomeController :=
  if data = broadcast_message then none else parseDiscoveryResponse data

/-- `MagicHome.discover`, as a function of the datagrams received before
the timeout. `found` is a Python `set`, but `MagicHomeController` defines
`__hash__` (over the address) without `__eq__`, so members compare by
object identity and every freshly constructed controller is a new member:
`found.add` never merges, and the set is modelled by a list that appends. -/
def discover (datagrams : List (List Char)) : List MagicHomeController :=
  datagrams.foldl
    (fun found data =>
      match discover_step data with
      | some c => found ++ [c]
      | none => found)
    []

/-- Outcome of `MagicHome.connect`. -/
inductive ConnectResult where
  | found (c : MagicHomeController)
  | deviceNotFound
deriving DecidableEq

/-- `MagicHome.connect`, as a function of the single datagram received
(`none` models `socket.timeout`): both the timeout and a failing
`MagicHomeController` construction raise `MagicHomeDeviceNotFound`; the
echoed probe is not filtered on this path. -/
def connect (response : Option (List Char)) : ConnectResult :=
  match response with
  | none => .deviceNotFound
  | some data =>
    match parseDiscoveryResponse data with
    | some c => .found c
    | none => .deviceNotFound

/-! ## Helper lemmas -/

/-- An in-range channel value passes through the clamp unchanged. -/
theorem int2byte_of_mem (n : ℕ) (h : n ≤ 255) : int2byte (n : ℤ) = n := by
  unfold int2byte
  rw [if_neg (by omega), if_neg (by omega)]
  exact Int.toNat_natCast n

/-! ## Claim theorems -/

/-- C1: `color` builds the 7-byte frame `[0x31, r, g, b, w, 0x0f, ck]` with
each channel clamped into [0,255] by `__int2byte` (inputs below 0 map to 0,
inputs above 255 map to 255, in-range inputs pass through) and `ck` the sum
of the six preceding bytes mod 256; for channels already in [0,255] the
last byte is `(0x31 + r + g + b + w + 0x0f) % 256`. -/
theorem color_command_spec :
    (∀ r g b w : ℤ, color_command r g b w =
      [0x31, int2byte r, int2byte g, int2byte b, int2byte w, 0x0f,
        (0x31 + int2byte r + int2byte g + int2byte b + int2byte w + 0x0f) % 256]) ∧
    (∀ i : ℤ, i < 0 → int2byte i = 0) ∧
    (∀ i : ℤ, 255 < i → int2byte i = 255) ∧
    (∀ i : ℤ, 0 ≤ i → i ≤ 255 → (int2byte i : ℤ) = i) ∧
    (∀ r g b w : ℕ, r ≤ 255 → g ≤ 255 → b ≤ 255 → w ≤ 255 →
      color_command (r : ℤ) (g : ℤ) (b : ℤ) (w : ℤ) =
        [0x31, r, g, b, w, 0x0f, (0x31 + r + g + b + w + 0x0f) % 256]) := by
  refine ⟨?_, ?_, ?_, ?_, ?_⟩
  · intro r g b w
    simp only [color_command, stream_checksum, List.sum_cons, List.sum_nil]
    norm_num [Nat.add_assoc]
  · intro i h
    simp [int2byte, h]
  · intro i h
    unfold int2byte
    rw [if_neg (by omega), if_pos (by omega)]
  · intro i h0 h255
    unfold int2byte
    rw [if_neg (by omega), if_neg (by omega)]
    exact Int.toNat_of_nonneg h0
  · intro r g b w hr hg hb hw
    simp only [color_command, stream_checksum, List.sum_cons, List.sum_nil,
      int2byte_of_mem r hr, int2byte_of_mem g hg, int2byte_of_mem b hb,
      int2byte_of_mem w hw]
    norm_num [Nat.add_assoc]

/-- Witness for C1: the clamps at -5 and 300, and an in-range frame whose
checksum is `(0x31 + 1 + 2 + 3 + 4 + 0x0f) % 256 = 74`. -/
theorem color_command_spec_witness :
    int2byte (-5) = 0 ∧ int2byte 300 = 255 ∧
    color_command 1 2 3 4 = [0x31, 1, 2, 3, 4, 0x0f, 74] := by
  refine ⟨color_command_spec.2.1 (-5) (by norm_num),
    color_command_spec.2.2.1 300 (by norm_num), ?_⟩
  have h := color_command_spec.2.2.2.2 1 2 3 4
    (by norm_num) (by norm_num) (by norm_num) (by norm_num)
  simpa using h

/-- C2: decoding a response of at least 10 bytes always succeeds; the
on/off flag is `true` exactly when byte 2 is `0x23`, it is never `false`
(the source's off-branch repeats the on-condition and is dead), and the
channels are bytes 6, 7, 8, 9. -/
theorem decodeQueryResponse_spec (response : List ℕ)
    (h : 10 ≤ response.length) :
    ∃ st, decodeQueryResponse response = .ok st ∧
      (st.is_on = some true ↔ response.getD 2 0 = 0x23) ∧
      st.is_on ≠ some false ∧
      st.color = ⟨response.getD 6 0, response.getD 7 0, response.getD 8 0,
        response.getD 9 0⟩ := by
  unfold decodeQueryResponse
  rw [if_neg (by omega)]
  by_cases hb : response.getD 2 0 = 0x23
  · refine ⟨_, rfl, ?_, ?_, rfl⟩ <;>
      simp only [List.getD_eq_getElem?_getD] at hb ⊢ <;> simp [hb]
  · refine ⟨_, rfl, ?_, ?_, rfl⟩ <;>
      simp only [List.getD_eq_getElem?_getD] at hb ⊢ <;> simp [hb]

/-- Witness for C2 at the spec's example buffer: byte 2 is `0x23` and the
channels are bytes 6-9, here (10,20,30,40). -/
theorem decodeQueryResponse_spec_witness :
    decodeQueryResponse [0x81, 0, 0x23, 0, 0, 0, 10, 20, 30, 40] =
      .ok ⟨some true, ⟨10, 20, 30, 40⟩⟩ ∧
    (∃ st, decodeQueryResponse [0x81, 0, 0x23, 0, 0, 0, 10, 20, 30, 40] =
        .ok st ∧
      (st.is_on = some true ↔
        ([0x81, 0, 0x23, 0, 0, 0, 10, 20, 30, 40] : List ℕ).getD 2 0 = 0x23) ∧
      st.is_on ≠ some false ∧
      st.color = ⟨([0x81, 0, 0x23, 0, 0, 0, 10, 20, 30, 40] : List ℕ).getD 6 0,
        ([0x81, 0, 0x23, 0, 0, 0, 10, 20, 30, 40] : List ℕ).getD 7 0,
        ([0x81, 0, 0x23, 0, 0, 0, 10, 20, 30, 40] : List ℕ).getD 8 0,
        ([0x81, 0, 0x23, 0, 0, 0, 10, 20, 30, 40] : List ℕ).getD 9 0⟩) :=
  ⟨by rfl, decodeQueryResponse_spec _ (by norm_num)⟩

/-- C3: the `state` getter fails on every response shorter than 10 bytes
(the source's `IndexError`, modelled `malformedResponse`) and fails on a
missing response (the source's `TypeError` on `None`, modelled
`noResponse`), and the two failure kinds are distinct. -/
theorem state_get_errors :
    (∀ response : List ℕ, response.length < 10 →
      state_get (some response) = .error .malformedResponse) ∧
    state_get none = .error .noResponse ∧
    StateErr.malformedResponse ≠ StateErr.noResponse :=
  ⟨fun response h => by simp [state_get, decodeQueryResponse, h],
   rfl, by decide⟩

/-- Witness for C3 at a 3-byte response. -/
theorem state_get_errors_witness :
    state_get (some [0x81, 0x8a, 0x23]) = .error .malformedResponse :=
  state_get_errors.1 [0x81, 0x8a, 0x23] (by norm_num)

/-- The fold in `discover` only ever appends, so it is the `filterMap` of
the per-datagram step. -/
theorem discover_eq_filterMap (datagrams : List (List Char)) :
    discover datagrams = datagrams.filterMap discover_step := by
  have key : ∀ (ds : List (List Char)) (acc : List MagicHomeController),
      ds.foldl (fun found data =>
        match discover_step data with
        | some c => found ++ [c]
        | none => found) acc = acc ++ ds.filterMap discover_step := by
    intro ds
    induction ds with
    | nil => intro acc; simp
    | cons d rest ih =>
      intro acc
      cases hd : discover_step d <;>
        simp [List.filterMap_cons, hd, ih, List.append_assoc]
  simpa using key datagrams []

/-- `split` on a datagram always returns at least one field. -/
theorem split_fields_ne_nil (data : List Char) : split_fields data ≠ [] := by
  induction data with
  | nil => simp [split_fields]
  | cons c rest ih =>
    unfold split_fields
    by_cases hc : c = ','
    · simp [hc]
    · rw [if_neg hc]
      cases h : split_fields rest with
      | nil => simp
      | cons f fs => simp

/-- C4: `discover` does not deduplicate two responses carrying the same
address. `__hash__` hashes the address, but without `__eq__` the Python
set compares members by object identity, so both freshly constructed
identities for address `10.0.0.1` are kept. -/
theorem discover_same_addr_not_merged :
    discover ["10.0.0.1,id1,modelA".toList, "10.0.0.1,id2,modelB".toList] =
      [⟨"10.0.0.1".toList, some "id1".toList, some "modelA".toList⟩,
       ⟨"10.0.0.1".toList, some "id2".toList, some "modelB".toList⟩] ∧
    (discover ["10.0.0.1,id1,modelA".toList,
        "10.0.0.1,id2,modelB".toList]).map MagicHomeController.addr =
      ["10.0.0.1".toList, "10.0.0.1".toList] := by
  constructor <;> decide

/-- C5 counterexample: the single-field response `10.0.0.1` does not split
into exactly 3 comma-separated fields, yet discovery yields an identity
for it instead of skipping it: the constructor's `id` and `model`
parameters default to `None`. -/
theorem discover_one_field_not_skipped :
    (split_fields "10.0.0.1".toList).length ≠ 3 ∧
    discover ["10.0.0.1".toList] = [⟨"10.0.0.1".toList, none, none⟩] := by
  constructor <;> decide

/-- C5 amended: a response splitting into more than 3 fields is skipped
without aborting the enumeration; a non-echo response splitting into at
most 3 fields yields one identity whose address is the first field (an
exactly-3-field split fills all of address, id and model); and a datagram
equal to the probe message is ignored. -/
theorem discover_malformed_spec :
    (∀ pre post d, 3 < (split_fields d).length →
      discover (pre ++ d :: post) = discover (pre ++ post)) ∧
    (∀ pre post,
      discover (pre ++ broadcast_message :: post) = discover (pre ++ post)) ∧
    (∀ d a i m, d ≠ broadcast_message → split_fields d = [a, i, m] →
      ∀ pre post, discover (pre ++ d :: post) =
        discover pre ++ ⟨a, some i, some m⟩ :: discover post) ∧
    (∀ d, d ≠ broadcast_message → (split_fields d).length ≤ 3 →
      ∃ c, discover_step d = some c ∧
        c.addr = (split_fields d).headD []) := by
  have hstep_none : ∀ d, 3 < (split_fields d).length → discover_step d = none := by
    intro d hd
    unfold discover_step parseDiscoveryResponse
    rcases h : split_fields d with _ | ⟨a, _ | ⟨i, _ | ⟨m, _ | rest⟩⟩⟩ <;>
      rw [h] at hd <;> simp_all
  refine ⟨?_, ?_, ?_, ?_⟩
  · intro pre post d hd
    simp [discover_eq_filterMap, List.filterMap_append, List.filterMap_cons,
      hstep_none d hd]
  · intro pre post
    simp [discover_eq_filterMap, List.filterMap_append, List.filterMap_cons,
      discover_step]
  · intro d a i m hne hsplit pre post
    have hstep : discover_step d = some ⟨a, some i, some m⟩ := by
      unfold discover_step parseDiscoveryResponse
      rw [if_neg hne, hsplit]
    simp [discover_eq_filterMap, List.filterMap_append, List.filterMap_cons,
      hstep]
  · intro d hne hlen
    unfold discover_step parseDiscoveryResponse
    rw [if_neg hne]
    rcases h : split_fields d with _ | ⟨a, _ | ⟨i, _ | ⟨m, _ | rest⟩⟩⟩
    · exact absurd h (split_fields_ne_nil d)
    · exact ⟨⟨a, none, none⟩, rfl, by simp [h]⟩
    · exact ⟨⟨a, some i, none⟩, rfl, by simp [h]⟩
    · exact ⟨⟨a, some i, some m⟩, rfl, by simp [h]⟩
    · rw [h] at hlen; simp at hlen

/-- Witness for the amended C5: a 5-field response contributes nothing, a
3-field response contributes one full identity, and the echoed probe is
dropped. -/
theorem discover_malformed_spec_witness :
    discover ["a,b,c,d,e".toList] = [] ∧
    discover ["x,y,z".toList] =
      [⟨"x".toList, some "y".toList, some "z".toList⟩] ∧
    discover [broadcast_message] = [] := by
  refine ⟨?_, ?_, ?_⟩
  · have h := discover_malformed_spec.1 [] [] "a,b,c,d,e".toList (by decide)
    simpa using h
  · have h := discover_malformed_spec.2.2.1 "x,y,z".toList
      "x".toList "y".toList "z".toList (by decide) (by decide) [] []
    simpa [discover] using h
  · have h := discover_malformed_spec.2.1 [] []
    simpa using h

/-- A split into more than 3 fields makes the constructor call raise
`TypeError`: too many arguments. -/
theorem parseDiscoveryResponse_none_of_many (d : List Char)
    (hd : 3 < (split_fields d).length) : parseDiscoveryResponse d = none := by
  unfold parseDiscoveryResponse
  rcases h : split_fields d with _ | ⟨a, _ | ⟨i, _ | ⟨m, _ | rest⟩⟩⟩ <;>
    rw [h] at hd <;> simp_all

/-- A split into at most 3 fields constructs an identity whose address is
the first field, the remaining constructor parameters defaulting. -/
theorem parseDiscoveryResponse_some_of_few (d : List Char)
    (hd : (split_fields d).length ≤ 3) :
    ∃ c, parseDiscoveryResponse d = some c ∧
      c.addr = (split_fields d).headD [] := by
  unfold parseDiscoveryResponse
  rcases h : split_fields d with _ | ⟨a, _ | ⟨i, _ | ⟨m, _ | rest⟩⟩⟩
  · exact absurd h (split_fields_ne_nil d)
  · exact ⟨⟨a, none, none⟩, rfl, by simp [h]⟩
  · exact ⟨⟨a, some i, none⟩, rfl, by simp [h]⟩
  · exact ⟨⟨a, some i, some m⟩, rfl, by simp [h]⟩
  · rw [h] at hd; simp at hd

/-- C6 counterexample: the single-field response `10.0.0.1` is malformed in
the spec's sense — it does not split into the expected 3 comma-separated
fields — yet `connect` returns an identity for it (with `id` and `model`
defaulted to `None`) instead of raising `MagicHomeDeviceNotFound`. -/
theorem connect_malformed_not_rejected :
    (split_fields "10.0.0.1".toList).length ≠ 3 ∧
    connect (some "10.0.0.1".toList) =
      .found ⟨"10.0.0.1".toList, none, none⟩ := by
  constructor <;> decide

/-- C6 amended: `connect` raises `MagicHomeDeviceNotFound` exactly when no
datagram arrives before the timeout or when the received datagram fails
the `MagicHomeController` construction, which happens exactly for splits
into more than 3 comma-separated fields; every datagram splitting into at
most 3 fields — well-formed or not — returns the identity built from the
split, its address the first field and missing `id`/`model` absent. -/
theorem connect_spec :
    connect none = .deviceNotFound ∧
    (∀ d, parseDiscoveryResponse d = none →
      connect (some d) = .deviceNotFound) ∧
    (∀ d c, parseDiscoveryResponse d = some c → connect (some d) = .found c) ∧
    (∀ response, connect response = .deviceNotFound ↔
      response = none ∨
        ∃ d, response = some d ∧ parseDiscoveryResponse d = none) ∧
    (∀ d, 3 < (split_fields d).length →
      connect (some d) = .deviceNotFound) ∧
    (∀ d, (split_fields d).length ≤ 3 →
      ∃ c, connect (some d) = .found c ∧
        c.addr = (split_fields d).headD []) := by
  refine ⟨rfl, ?_, ?_, ?_, ?_, ?_⟩
  · intro d hd
    simp [connect, hd]
  · intro d c hd
    simp [connect, hd]
  · intro response
    cases response with
    | none => simp [connect]
    | some d =>
      cases hd : parseDiscoveryResponse d <;> simp [connect, hd]
  · intro d hd
    simp [connect, parseDiscoveryResponse_none_of_many d hd]
  · intro d hd
    obtain ⟨c, hc, haddr⟩ := parseDiscoveryResponse_some_of_few d hd
    exact ⟨c, by simp [connect, hc], haddr⟩

/-- Witness for the amended C6: a 4-field datagram is rejected, a 3-field
datagram returns the full identity, and a 1-field datagram also returns an
identity. -/
theorem connect_spec_witness :
    connect (some "a,b,c,d".toList) = .deviceNotFound ∧
    connect (some "10.0.0.1,id1,modelA".toList) =
      .found ⟨"10.0.0.1".toList, some "id1".toList, some "modelA".toList⟩ ∧
    ∃ c, connect (some "10.0.0.2".toList) = .found c ∧
      c.addr = (split_fields "10.0.0.2".toList).headD [] :=
  ⟨connect_spec.2.2.2.2.1 "a,b,c,d".toList (by decide),
   connect_spec.2.2.1 "10.0.0.1,id1,modelA".toList _ (by decide),
   connect_spec.2.2.2.2.2 "10.0.0.2".toList (by decide)⟩

/-- Both branches of `rgb_to_hls` report the same luminance: half the sum
of the largest and smallest channel. -/
theorem rgb_to_hls_l (r g b : ℚ) :
    (rgb_to_hls r g b).l = (max r (max g b) + min r (min g b)) / 2 := by
  simp only [rgb_to_hls]
  split <;> rfl

/-- The adjusted luminance with `percentage=False`, the clamp spelled out. -/
theorem adjusted_luminance_false_def (c : MagicHomeControllerColorState)
    (delta : ℚ) :
    c.adjusted_luminance delta false =
      if c.luminance + delta < 0 then 0
      else if c.luminance + delta > 255 then 255
      else c.luminance + delta := rfl

/-- The adjusted luminance with `percentage=True`, the clamp spelled out. -/
theorem adjusted_luminance_true_def (c : MagicHomeControllerColorState)
    (delta : ℚ) :
    c.adjusted_luminance delta true =
      if c.luminance * delta < 0 then 0
      else if c.luminance * delta > 255 then 255
      else c.luminance * delta := rfl

/-- C8: `change_brightness` with `delta = 0` returns the color unchanged;
for every color and delta the adjusted luminance lies in [0,255]; whenever
the moved luminance passes 255 it is clamped to exactly 255, and whenever
it passes 0 it is clamped to exactly 0 — in particular, for channels in
[0,255] any additive delta of at least 256 pins the luminance at 255 and
any delta of at most -256 pins it at 0. -/
theorem change_brightness_spec :
    (∀ c : MagicHomeControllerColorState, ∀ p,
      c.change_brightness 0 p = c) ∧
    (∀ c : MagicHomeControllerColorState, ∀ delta p,
      0 ≤ c.adjusted_luminance delta p ∧ c.adjusted_luminance delta p ≤ 255) ∧
    (∀ c : MagicHomeControllerColorState, ∀ delta, 255 < c.luminance + delta →
      c.adjusted_luminance delta false = 255) ∧
    (∀ c : MagicHomeControllerColorState, ∀ delta, c.luminance + delta < 0 →
      c.adjusted_luminance delta false = 0) ∧
    (∀ c : MagicHomeControllerColorState, ∀ delta,
      0 ≤ c.r → 0 ≤ c.g → 0 ≤ c.b → 256 ≤ delta →
      c.adjusted_luminance delta false = 255) ∧
    (∀ c : MagicHomeControllerColorState, ∀ delta,
      c.r ≤ 255 → c.g ≤ 255 → c.b ≤ 255 → delta ≤ -256 →
      c.adjusted_luminance delta false = 0) := by
  have hlum_nonneg : ∀ c : MagicHomeControllerColorState,
      0 ≤ c.r → 0 ≤ c.g → 0 ≤ c.b → 0 ≤ c.luminance := by
    intro c hr hg hb
    rw [MagicHomeControllerColorState.luminance, rgb_to_hls_l]
    have h1 : (0 : ℚ) ≤ c.r := by exact_mod_cast hr
    have h2 : (0 : ℚ) ≤ c.g := by exact_mod_cast hg
    have h3 : (0 : ℚ) ≤ c.b := by exact_mod_cast hb
    have hmax : (0 : ℚ) ≤ max (c.r : ℚ) (max c.g c.b) :=
      le_trans h1 (le_max_left _ _)
    have hmin : (0 : ℚ) ≤ min (c.r : ℚ) (min c.g c.b) :=
      le_min h1 (le_min h2 h3)
    linarith
  have hlum_le : ∀ c : MagicHomeControllerColorState,
      c.r ≤ 255 → c.g ≤ 255 → c.b ≤ 255 → c.luminance ≤ 255 := by
    intro c hr hg hb
    rw [MagicHomeControllerColorState.luminance, rgb_to_hls_l]
    have h1 : (c.r : ℚ) ≤ 255 := by exact_mod_cast hr
    have h2 : (c.g : ℚ) ≤ 255 := by exact_mod_cast hg
    have h3 : (c.b : ℚ) ≤ 255 := by exact_mod_cast hb
    have hmax : max (c.r : ℚ) (max c.g c.b) ≤ 255 :=
      max_le h1 (max_le h2 h3)
    have hmin : min (c.r : ℚ) (min c.g c.b) ≤ 255 :=
      le_trans (min_le_left _ _) h1
    linarith
  refine ⟨?_, ?_, ?_, ?_, ?_, ?_⟩
  · intro c p
    simp [MagicHomeControllerColorState.change_brightness]
  · intro c delta p
    cases p
    · rw [adjusted_luminance_false_def]
      constructor <;> split_ifs <;> linarith
    · rw [adjusted_luminance_true_def]
      constructor <;> split_ifs <;> linarith
  · intro c delta h
    rw [adjusted_luminance_false_def]
    split_ifs <;> linarith
  · intro c delta h
    rw [adjusted_luminance_false_def]
    split_ifs
    all_goals linarith
  · intro c delta hr hg hb hd
    have := hlum_nonneg c hr hg hb
    rw [adjusted_luminance_false_def]
    split_ifs <;> linarith
  · intro c delta hr hg hb hd
    have := hlum_le c hr hg hb
    rw [adjusted_luminance_false_def]
    split_ifs <;> linarith

/-- Witness for C8 at the color (10,20,30): luminance 20, pinned to 255 by
delta 300 and to 0 by delta -300; bounds hold at delta 5. -/
theorem change_brightness_spec_witness :
    MagicHomeControllerColorState.change_brightness ⟨10, 20, 30, 0⟩ 0 false =
      ⟨10, 20, 30, 0⟩ ∧
    (0 ≤ MagicHomeControllerColorState.adjusted_luminance ⟨10, 20, 30, 0⟩ 5 false ∧
      MagicHomeControllerColorState.adjusted_luminance ⟨10, 20, 30, 0⟩ 5 false ≤ 255) ∧
    MagicHomeControllerColorState.adjusted_luminance ⟨10, 20, 30, 0⟩ 300 false = 255 ∧
    MagicHomeControllerColorState.adjusted_luminance ⟨10, 20, 30, 0⟩ (-300) false = 0 :=
  ⟨change_brightness_spec.1 ⟨10, 20, 30, 0⟩ false,
   change_brightness_spec.2.1 ⟨10, 20, 30, 0⟩ 5 false,
   change_brightness_spec.2.2.2.2.1 ⟨10, 20, 30, 0⟩ 300
     (by norm_num) (by norm_num) (by norm_num) (by norm_num),
   change_brightness_spec.2.2.2.2.2 ⟨10, 20, 30, 0⟩ (-300)
     (by norm_num) (by norm_num) (by norm_num) (by norm_num)⟩

/-- C9: `power_toggle` sends the off frame exactly when the queried state
reports `is_on is True`; for `False` and for the indeterminate `None` it
sends the on frame, so an indeterminate toggle turns the device on. -/
theorem power_toggle_spec (st : MagicHomeControllerState) :
    (power_toggle_action st = .turnOff ↔ st.is_on = some true) ∧
    (power_toggle_action st = .turnOn ↔ st.is_on ≠ some true) ∧
    power_toggle_action ⟨none, st.color⟩ = .turnOn := by
  unfold power_toggle_action
  by_cases h : st.is_on = some true <;> simp [h]

/-- C10: pushing a state whose flag is indeterminate sends only the
turn-off frame `71 24 95` — the color is never pushed — while
`power_toggle` on the same indeterminate state picks the on frame: the two
operations resolve the ambiguity in opposite directions. -/
theorem set_state_indeterminate (c : MagicHomeControllerColorState) :
    set_state ⟨none, c⟩ = [Command.turnOff] ∧
    (set_state ⟨none, c⟩).map Command.wire = [[0x71, 0x24, 0x95]] ∧
    power_toggle_action ⟨none, c⟩ = .turnOn := by
  refine ⟨rfl, rfl, rfl⟩

/-- C7: `change_brightness` pushes a channel far outside [0,255]. The
source hands raw 0-255 channels to `colorsys`, which expects [0,1]; for
(255,0,0) the computed saturation is negative (-255/253), so after a +100
brightness step the reconstructed red channel is `int(455.79...) = 455`.
Only the intermediate luminance is clamped — the channel invariant is
violated, not clamped. -/
theorem change_brightness_escapes_range :
    MagicHomeControllerColorState.change_brightness ⟨255, 0, 0, 0⟩ 100 false =
      ⟨455, 0, 0, 0⟩ ∧
    ¬(MagicHomeControllerColorState.change_brightness
        ⟨255, 0, 0, 0⟩ 100 false).r ≤ 255 := by
  have hmain : MagicHomeControllerColorState.change_brightness
      ⟨255, 0, 0, 0⟩ 100 false = ⟨455, 0, 0, 0⟩ := by
    norm_num [MagicHomeControllerColorState.change_brightness,
      MagicHomeControllerColorState.adjusted_luminance,
      MagicHomeControllerColorState.luminance,
      rgb_to_hls, hls_to_rgb, hls_v, pyfract, int_trunc,
      max_def, min_def, MagicHomeControllerColorState.mk.injEq]
  refine ⟨hmain, ?_⟩
  rw [hmain]
  norm_num
